import Mathlib

/-!
# Javascript-AI obfuscator page: a verification development of `script.js`

The page script has three pieces of first-party logic:

* `oneTimeFunctionExecutor`, a closure factory handing out a wrapper that runs
  a target function once (lines 2-21);
* the `securitySlider` "input" handler, which shows the label of the selected
  level and toggles the indicator dots (lines 114-122);
* the `obfuscateBtn` "click" handler, which calls the external obfuscator and
  writes a banner, an error text or a placeholder to `outputCode`
  (lines 125-148).

Each is embedded below as a total, executable Lean function over explicit
state.  JavaScript strings are modelled by Lean strings (sequences of Unicode
scalar values; lone surrogates are not represented).
-/

namespace JavascriptAI

/-! ## JavaScript values -/

/-- Primitive JavaScript values that occur in the script (numbers and symbols
are not needed as first-class values). -/
inductive Prim where
  | undefined
  | null
  | bool (b : Bool)
  | str (s : String)
  deriving DecidableEq, Repr

/-- A JavaScript value as far as the script can observe it: a primitive, or an
object described by what reading its `message` property yields (`undefined`
when the object has no such property). -/
inductive Value where
  | prim (p : Prim)
  | obj (message : Prim)
  deriving DecidableEq, Repr

/-- ToString on a primitive, as performed by the `+` operator with a string
operand. -/
def Prim.toStr : Prim → String
  | .undefined => "undefined"
  | .null => "null"
  | .bool true => "true"
  | .bool false => "false"
  | .str s => s

/-- The `TypeError` raised by the engine when a property is read from
`undefined` or `null`.  The message text is the one V8 produces; only the fact
that it is an `Error` object carrying a string message matters below. -/
def typeErrorReading (base property : String) : Value :=
  .obj (.str ("Cannot read properties of " ++ base ++ " (reading \x27" ++ property ++ "\x27)"))

/-- Reading `v.message`: raises a `TypeError` on `undefined` and `null`, gives
`undefined` on the other primitives, and the stored property on an object. -/
def getMessage : Value → Except Value Prim
  | .prim .undefined => .error (typeErrorReading "undefined" "message")
  | .prim .null => .error (typeErrorReading "null" "message")
  | .prim _ => .ok .undefined
  | .obj m => .ok m

/-! ## `String.prototype.trim` and `parseInt(_, 10)` -/

/-- The code points ECMAScript counts as WhiteSpace or LineTerminator; these
are what `trim` and `parseInt` strip. -/
def isJSWhiteSpace (c : Char) : Bool :=
  let n := c.toNat
  n = 0x09 || n = 0x0A || n = 0x0B || n = 0x0C || n = 0x0D || n = 0x20 || n = 0xA0
    || n = 0x1680 || (0x2000 ≤ n && n ≤ 0x200A) || n = 0x2028 || n = 0x2029
    || n = 0x202F || n = 0x205F || n = 0x3000 || n = 0xFEFF

/-- Trim on a list of characters: drop white space at both ends. -/
def trimChars (cs : List Char) : List Char :=
  ((cs.dropWhile isJSWhiteSpace).reverse.dropWhile isJSWhiteSpace).reverse

/-- The method `String.prototype.trim`. -/
def jsTrim (s : String) : String :=
  String.mk (trimChars s.toList)

/-- Value of a run of decimal digits, most significant first, continuing from
the accumulator. -/
def digitsValue : Nat → List Char → Nat
  | acc, [] => acc
  | acc, c :: cs => digitsValue (10 * acc + (c.toNat - 48)) cs

/-- The call `parseInt(s, 10)`: skip leading white space, read an optional
sign, then the longest run of decimal digits; `none` stands for `NaN` (no
digit).  The result is kept as an exact integer: rounding to a double changes
neither whether it equals 1, 2 or 3 nor any comparison made below, and `-0` is
identified with `0` (both print as "0"). -/
def parseInt10 (s : String) : Option Int :=
  let body := s.toList.dropWhile isJSWhiteSpace
  let negative := body.head? = some '-'
  let unsigned := if body.head? = some '-' ∨ body.head? = some '+' then body.tail else body
  let digits := unsigned.takeWhile Char.isDigit
  if digits = [] then none
  else if negative then some (-(digitsValue 0 digits : Int))
  else some (digitsValue 0 digits : Int)

/-- ToString of a number used as a property key: "NaN", or the decimal form of
an integer (exact for magnitudes below 10^21, beyond which the engine prints
an exponent form that is no key of any object here either). -/
def numberKey : Option Int → String
  | none => "NaN"
  | some n => toString n

/-! ## Obfuscation levels (lines 48-111) -/

/-- A numeric literal of the source, recorded exactly as the decimal
`digits / 10 ^ scale` (so `0.5` is `5` at scale `1` and `0x4` is `4` at scale
`0`); its rounding to a double is not represented. -/
structure NumLit where
  digits : Nat
  scale : Nat
  deriving DecidableEq, Repr

/-- The options object handed to the obfuscator; an absent key is `none`. -/
structure ObfuscationOptions where
  compact : Option Bool := none
  controlFlowFlattening : Option Bool := none
  controlFlowFlatteningThreshold : Option NumLit := none
  deadCodeInjection : Option Bool := none
  deadCodeInjectionThreshold : Option NumLit := none
  stringArray : Option Bool := none
  stringArrayThreshold : Option NumLit := none
  splitStrings : Option Bool := none
  splitStringsChunkLength : Option NumLit := none
  numbersToExpressions : Option Bool := none
  simplify : Option Bool := none
  rotateStringArray : Option Bool := none
  selfDefending : Option Bool := none
  transformObjectKeys : Option Bool := none
  deriving DecidableEq, Repr

/-- A level: its display label and its options object. -/
structure LevelConfig where
  label : String
  options : ObfuscationOptions
  deriving DecidableEq, Repr

def basicObfuscationOptions : ObfuscationOptions :=
  { compact := some true
    controlFlowFlattening := some false
    deadCodeInjection := some false
    stringArray := some false
    numbersToExpressions := some false }

def basicLevelConfig : LevelConfig :=
  { label := "BASIC", options := basicObfuscationOptions }

def mediumObfuscationOptions : ObfuscationOptions :=
  { compact := some true
    controlFlowFlattening := some true
    controlFlowFlatteningThreshold := some ⟨5, 1⟩
    deadCodeInjection := some true
    deadCodeInjectionThreshold := some ⟨2, 1⟩
    stringArray := some true
    stringArrayThreshold := some ⟨7, 1⟩
    numbersToExpressions := some true
    splitStrings := some false }

def mediumLevelConfig : LevelConfig :=
  { label := "MEDIUM", options := mediumObfuscationOptions }

def advancedObfuscationOptions : ObfuscationOptions :=
  { compact := some true
    controlFlowFlattening := some true
    controlFlowFlatteningThreshold := some ⟨1, 0⟩
    deadCodeInjection := some true
    deadCodeInjectionThreshold := some ⟨1, 0⟩
    stringArray := some true
    stringArrayThreshold := some ⟨1, 0⟩
    splitStrings := some true
    splitStringsChunkLength := some ⟨4, 0⟩
    numbersToExpressions := some true
    simplify := some true
    rotateStringArray := some true
    selfDefending := some true
    transformObjectKeys := some true }

def advancedLevelConfig : LevelConfig :=
  { label := "ADVANCED", options := advancedObfuscationOptions }

/-- The own properties of `obfuscationLevelsMap`, in source order. -/
def obfuscationLevelsMap : List (String × LevelConfig) :=
  [("1", basicLevelConfig), ("2", mediumLevelConfig), ("3", advancedLevelConfig)]

/-- Property names every plain object inherits from `Object.prototype`. -/
def objectPrototypeKeys : List String :=
  ["constructor", "toString", "toLocaleString", "valueOf", "hasOwnProperty",
   "isPrototypeOf", "propertyIsEnumerable", "__proto__", "__defineGetter__",
   "__defineSetter__", "__lookupGetter__", "__lookupSetter__"]

/-- What `obfuscationLevelsMap[key]` evaluates to. -/
inductive Member where
  | level (cfg : LevelConfig)
  | inherited
  | undefined
  deriving DecidableEq, Repr

/-- Property lookup `obfuscationLevelsMap[key]`: an own property gives the
level, a name inherited from `Object.prototype` gives a built-in function or
object (which has neither `label` nor `options`), anything else `undefined`. -/
def getMember (key : String) : Member :=
  match obfuscationLevelsMap.lookup key with
  | some cfg => .level cfg
  | none => if key ∈ objectPrototypeKeys then .inherited else .undefined

/-- Reading `.label` from a looked-up member. -/
def Member.getLabel : Member → Except Value Prim
  | .level cfg => .ok (.str cfg.label)
  | .inherited => .ok .undefined
  | .undefined => .error (typeErrorReading "undefined" "label")

/-- Reading `.options` from a looked-up member; `none` is `undefined`. -/
def Member.getOptions : Member → Except Value (Option ObfuscationOptions)
  | .level cfg => .ok (some cfg.options)
  | .inherited => .ok none
  | .undefined => .error (typeErrorReading "undefined" "options")

/-! ## The `securitySlider` "input" handler (lines 114-122) -/

/-- What the slider handler leaves behind: the text of `levelValue`, for each
element of `dots` whether its class list holds "active", and the value raised
out of the handler, if any. -/
structure SliderOutcome where
  levelValue : String
  dots : List Bool
  raised : Option Value
  deriving DecidableEq, Repr

/-- Assigning to `textContent`: a string is stored as is, `undefined` and
`null` store the empty string. -/
def textContentOf : Prim → String
  | .str s => s
  | .bool b => Prim.toStr (.bool b)
  | _ => ""

/-- The test `dotIndex === sliderValueInt - 1`; it is false when the slider
value parsed to `NaN`. -/
def isActiveIndex (sliderValueInt : Option Int) (dotIndex : Nat) : Bool :=
  match sliderValueInt with
  | none => false
  | some n => decide ((dotIndex : Int) = n - 1)

/-- The loop `dots.forEach((dotElement, dotIndex) => dotElement.classList.toggle
("active", dotIndex === sliderValueInt - 1))`, started at index `dotIndex`:
the forced toggle overwrites the previous state of every element. -/
def toggleDots (sliderValueInt : Option Int) : Nat → List Bool → List Bool
  | _, [] => []
  | dotIndex, _ :: rest =>
    isActiveIndex sliderValueInt dotIndex :: toggleDots sliderValueInt (dotIndex + 1) rest

/-- The "input" listener of `securitySlider`, run with `securitySlider.value =
value` on a page whose label shows `levelBefore` and whose dots are in state
`dotsBefore`.  A failing label lookup raises before anything is written. -/
def securitySliderInput (value : String) (levelBefore : String) (dotsBefore : List Bool) :
    SliderOutcome :=
  let sliderValueInt := parseInt10 value
  match (getMember (numberKey sliderValueInt)).getLabel with
  | .error e => { levelValue := levelBefore, dots := dotsBefore, raised := some e }
  | .ok label =>
    { levelValue := textContentOf label
      dots := toggleDots sliderValueInt 0 dotsBefore
      raised := none }

/-! ## The `obfuscateBtn` "click" handler (lines 125-148) -/

/-- The object returned by `JavaScriptObfuscator.obfuscate`: its accessor
either yields the obfuscated text or raises. -/
structure ObfuscationResult where
  getObfuscatedCode : Except Value String

/-- The external obfuscator: `obfuscate(sourceText, options)` either returns
a result object or raises some value.  The options argument is `none` when
`undefined` is passed.  A click calls `obfuscate` at most once, so a function
of the arguments covers every behaviour the handler can meet. -/
structure Collaborator where
  obfuscate : String → Option ObfuscationOptions → Except Value ObfuscationResult

/-- What the click handler leaves behind: the text of `outputCode`, the
arguments of every `obfuscate` call it made, and the value raised out of the
handler, if any. -/
structure ClickOutcome where
  outputCode : String
  calls : List (String × Option ObfuscationOptions)
  raised : Option Value
  deriving DecidableEq, Repr

/-- Text shown when the input is empty (line 130). -/
def emptyInputMessage : String :=
  "// Tafadhali andika JavaScript code kwanza (Black-Tappy)"

/-- The banner of line 143 for a label text. -/
def banner (label : String) : String :=
  "// Obfuscated by Black-Tappy [" ++ label ++ "]\n"

/-- The body of the `try` block (lines 136-143): the `obfuscate` calls made
and either the text assigned to `outputCode` or the value raised.  On line
143 the label is read before `getObfuscatedCode()` is called. -/
def tryBlock (collab : Collaborator) (sliderValue inputCodeValue : String) :
    List (String × Option ObfuscationOptions) × Except Value String :=
  match (getMember sliderValue).getOptions with
  | .error e => ([], .error e)
  | .ok selectedOptions =>
    match collab.obfuscate inputCodeValue selectedOptions with
    | .error e => ([(inputCodeValue, selectedOptions)], .error e)
    | .ok obfuscatedCodeResult =>
      match (getMember sliderValue).getLabel with
      | .error e => ([(inputCodeValue, selectedOptions)], .error e)
      | .ok label =>
        match obfuscatedCodeResult.getObfuscatedCode with
        | .error e => ([(inputCodeValue, selectedOptions)], .error e)
        | .ok code => ([(inputCodeValue, selectedOptions)], .ok (banner label.toStr ++ code))

/-- The body of the `catch` block (line 146): the text `"// Error: " +
error.message`, or the `TypeError` raised by reading `message`. -/
def catchBlock (error : Value) : Except Value String :=
  match getMessage error with
  | .error e => .error e
  | .ok message => .ok ("// Error: " ++ message.toStr)

/-- The "click" listener of `obfuscateBtn`, run with `securitySlider.value =
sliderValue` and `inputCode.value = inputCodeValue` while `outputCode` shows
`outputBefore`. -/
def obfuscateBtnClick (collab : Collaborator) (sliderValue inputCodeValue outputBefore : String) :
    ClickOutcome :=
  if jsTrim inputCodeValue = "" then
    { outputCode := emptyInputMessage, calls := [], raised := none }
  else
    match tryBlock collab sliderValue inputCodeValue with
    | (calls, .ok text) => { outputCode := text, calls := calls, raised := none }
    | (calls, .error error) =>
      match catchBlock error with
      | .ok text => { outputCode := text, calls := calls, raised := none }
      | .error e => { outputCode := outputBefore, calls := calls, raised := some e }

/-- The three texts the handler is meant to leave in `outputCode`. -/
def Displayable (text : String) : Prop :=
  text = emptyInputMessage ∨ (∃ label code, text = banner label ++ code) ∨
    ∃ message, text = "// Error: " ++ message

/-! ## `oneTimeFunctionExecutor` (lines 2-21) -/

/-- How a function call ends: it returns a value or raises one. -/
inductive Completion where
  | normal (v : Value)
  | throw (e : Value)
  deriving DecidableEq, Repr

/-- The run of a target function from the point of view of the guard, over a
program state `σ` of the caller: it ends in state `s` with a completion, or it
moves to state `s`, calls the wrapper numbered `wrapper` with `args`, and goes
on from the state and completion of that nested call. -/
inductive Body (σ : Type) where
  | done (s : σ) (c : Completion)
  | invoke (s : σ) (wrapper : Nat) (args : List Value) (k : σ → Completion → Body σ)

/-- A target function: from `this`, the arguments and the current state to
its run. -/
abbrev Target (σ : Type) := Value → List Value → σ → Body σ

/-- One `executorFunction` closure: which of the two function expressions of
lines 8-16 it is (`armed` for the first), and the `context` and
`funcToExecute` variables it captured (`none` is `null`, or any falsy
argument). Targets are named by their number in a table of functions. -/
structure Closure where
  armed : Bool
  context : Value
  funcToExecute : Option Nat
  deriving DecidableEq, Repr

/-- The state of the guard and its surroundings: the `isFirstCall` variable,
the wrappers created so far (numbered in order of creation), the log of every
time a target began executing (target, `this`, arguments), and the state of
the calling program. -/
structure World (σ : Type) where
  isFirstCall : Bool
  closures : List Closure
  started : List (Nat × Value × List Value)
  user : σ
  deriving DecidableEq, Repr

/-- The state right after the function expression of lines 2-21 was evaluated
(`let isFirstCall = true`). -/
def World.fresh {σ : Type} (user : σ) : World σ :=
  { isFirstCall := true, closures := [], started := [], user := user }

/-- The call `oneTimeFunctionExecutor(context, funcToExecute)` (lines 6-20):
picks the function expression by `isFirstCall`, clears the flag and returns
the number of the new wrapper. -/
def oneTimeFunctionExecutor {σ : Type} (context : Value) (funcToExecute : Option Nat)
    (w : World σ) : World σ × Nat :=
  ({ w with
      isFirstCall := false
      closures := w.closures ++
        [{ armed := w.isFirstCall, context := context, funcToExecute := funcToExecute }] },
   w.closures.length)

/-- Clearing the `funcToExecute` variable of the closure at a position of the
list of closures; the other closures and the other captured variables are
left as they are. -/
def clearAt : Nat → List Closure → List Closure
  | _, [] => []
  | 0, c :: cs => { c with funcToExecute := none } :: cs
  | n + 1, c :: cs => c :: clearAt n cs

/-- The assignment `funcToExecute = null` inside wrapper number `wrapper`. -/
def World.nullify {σ : Type} (w : World σ) (wrapper : Nat) : World σ :=
  { w with closures := clearAt wrapper w.closures }

/-- What the interpreter is asked to do: call a wrapper, or go on with the run
of a target. -/
inductive Task (σ : Type) where
  | call (wrapper : Nat) (args : List Value)
  | resume (body : Body σ)

/-- The interpreter.  Calling an armed wrapper whose `funcToExecute` is set
logs the start of the target, runs it, and only after a normal return clears
`funcToExecute` (lines 10-15); a raise leaves the variable as it is.  Any
other wrapper call returns `undefined`.  The number bounds the depth of the
computation (the call stack); `none` means the bound was reached. -/
def run {σ : Type} (targets : Nat → Target σ) :
    Nat → Task σ → World σ → Option (World σ × Completion)
  | 0, _, _ => none
  | fuel + 1, .call wrapper args, w =>
    match w.closures[wrapper]? with
    | none => some (w, .throw (.obj (.str "executorFunction is not a function")))
    | some c =>
      if c.armed then
        match c.funcToExecute with
        | none => some (w, .normal (.prim .undefined))
        | some t =>
          match run targets fuel (.resume (targets t c.context args w.user))
              { w with started := w.started ++ [(t, c.context, args)] } with
          | none => none
          | some (w1, .normal result) => some (w1.nullify wrapper, .normal result)
          | some (w1, .throw e) => some (w1, .throw e)
      else some (w, .normal (.prim .undefined))
  | _ + 1, .resume (.done s c), w => some ({ w with user := s }, c)
  | fuel + 1, .resume (.invoke s wrapper args k), w =>
    match run targets fuel (.call wrapper args) { w with user := s } with
    | none => none
    | some (w1, c) => run targets fuel (.resume (k w1.user c)) w1

/-- A sequence of top-level (non-nested) invocations of one wrapper, one per
argument list, each started after the previous one completed. -/
def invokeAll {σ : Type} (targets : Nat → Target σ) (fuel wrapper : Nat) :
    List (List Value) → World σ → Option (World σ × List Completion)
  | [], w => some (w, [])
  | args :: rest, w =>
    match run targets fuel (.call wrapper args) w with
    | none => none
    | some (w1, c) =>
      match invokeAll targets fuel wrapper rest w1 with
      | none => none
      | some (w2, cs) => some (w2, c :: cs)

/-- The collaborator call made for `sourceText` and `options` raises `e`:
either `obfuscate` raises it, or `obfuscate` returns and `getObfuscatedCode`
raises it. -/
def CollaboratorRaises (collab : Collaborator) (sourceText : String)
    (options : Option ObfuscationOptions) (e : Value) : Prop :=
  collab.obfuscate sourceText options = .error e ∨
    ∃ r, collab.obfuscate sourceText options = .ok r ∧ r.getObfuscatedCode = .error e

/-! ## Sample collaborators and targets -/

/-- A collaborator that returns its input unchanged. -/
def echoCollaborator : Collaborator :=
  { obfuscate := fun sourceText _ => .ok { getObfuscatedCode := .ok sourceText } }

/-- A collaborator whose `obfuscate` raises an `Error` with message "boom". -/
def boomCollaborator : Collaborator :=
  { obfuscate := fun _ _ => .error (.obj (.str "boom")) }

/-- A collaborator whose `obfuscate` executes `throw null`. -/
def nullThrowingCollaborator : Collaborator :=
  { obfuscate := fun _ _ => .error (.prim .null) }

/-- A collaborator whose `obfuscate` returns, and whose `getObfuscatedCode`
executes `throw "oops"` (a string, which has no `message` property). -/
def stringThrowingCollaborator : Collaborator :=
  { obfuscate := fun _ _ => .ok { getObfuscatedCode := .error (.prim (.str "oops")) } }

/-- Targets over a counter: every target increments the counter and returns
the string "done". -/
def countingTargets : Nat → Target Nat :=
  fun _ _ _ n => .done (n + 1) (.normal (.prim (.str "done")))

/-- Targets over a counter: every target increments the counter and raises an
`Error` with message "boom". -/
def raisingTargets : Nat → Target Nat :=
  fun _ _ _ n => .done (n + 1) (.throw (.obj (.str "boom")))

/-- Targets over a counter: every target increments the counter; called with
no argument it returns "done", called with arguments it first calls wrapper 0
again with no argument and then returns what that call returned. -/
def reentrantTargets : Nat → Target Nat :=
  fun _ _ args n =>
    if args = [] then .done (n + 1) (.normal (.prim (.str "done")))
    else .invoke (n + 1) 0 [] (fun m c => .done m c)

/-! ## Facts about the level table -/

theorem getMember_one : getMember "1" = .level basicLevelConfig := by decide

theorem getMember_two : getMember "2" = .level mediumLevelConfig := by decide

theorem getMember_three : getMember "3" = .level advancedLevelConfig := by decide

theorem getMember_undefined {key : String} (hown : obfuscationLevelsMap.lookup key = none)
    (hproto : key ∉ objectPrototypeKeys) : getMember key = .undefined := by
  simp [getMember, hown, hproto]

theorem lookup_eq_none_of_not_key {key : String} (h : key ∉ ["1", "2", "3"]) :
    obfuscationLevelsMap.lookup key = none := by
  simp only [List.mem_cons, List.mem_singleton, List.not_mem_nil, or_false, not_or] at h
  obtain ⟨h1, h2, h3⟩ := h
  have e1 : (key == "1") = false := by simpa using h1
  have e2 : (key == "2") = false := by simpa using h2
  have e3 : (key == "3") = false := by simpa using h3
  simp [obfuscationLevelsMap, List.lookup, e1, e2, e3]

theorem parseInt10_of_prototype_key {key : String} (h : key ∈ objectPrototypeKeys) :
    parseInt10 key = none := by
  simp only [objectPrototypeKeys, List.mem_cons, List.mem_singleton, List.not_mem_nil,
    or_false] at h
  rcases h with h | h | h | h | h | h | h | h | h | h | h | h <;> subst h <;> decide

/-! ## The click handler -/

theorem click_of_empty (collab : Collaborator) (sliderValue src outputBefore : String)
    (h : jsTrim src = "") :
    obfuscateBtnClick collab sliderValue src outputBefore =
      { outputCode := emptyInputMessage, calls := [], raised := none } := by
  simp [obfuscateBtnClick, h]

theorem click_of_level_success (collab : Collaborator) (sliderValue src outputBefore : String)
    (cfg : LevelConfig) (r : ObfuscationResult) (c : String) (hsrc : jsTrim src ≠ "")
    (hmem : getMember sliderValue = .level cfg)
    (hobf : collab.obfuscate src (some cfg.options) = .ok r)
    (hget : r.getObfuscatedCode = .ok c) :
    obfuscateBtnClick collab sliderValue src outputBefore =
      { outputCode := banner cfg.label ++ c, calls := [(src, some cfg.options)],
        raised := none } := by
  simp [obfuscateBtnClick, hsrc, tryBlock, hmem, Member.getOptions, Member.getLabel, hobf,
    hget, Prim.toStr]

theorem click_of_level_raise (collab : Collaborator) (sliderValue src outputBefore : String)
    (cfg : LevelConfig) (e : Value) (hsrc : jsTrim src ≠ "")
    (hmem : getMember sliderValue = .level cfg)
    (hraise : CollaboratorRaises collab src (some cfg.options) e) :
    obfuscateBtnClick collab sliderValue src outputBefore =
      match catchBlock e with
      | .ok text => { outputCode := text, calls := [(src, some cfg.options)], raised := none }
      | .error e1 =>
        { outputCode := outputBefore, calls := [(src, some cfg.options)], raised := some e1 } := by
  rcases hraise with hobf | ⟨r, hobf, hget⟩
  · simp [obfuscateBtnClick, hsrc, tryBlock, hmem, Member.getOptions, hobf]
  · simp [obfuscateBtnClick, hsrc, tryBlock, hmem, Member.getOptions, Member.getLabel, hobf,
      hget]

theorem click_of_undefined (collab : Collaborator) (sliderValue src outputBefore : String)
    (hsrc : jsTrim src ≠ "") (hmem : getMember sliderValue = .undefined) :
    obfuscateBtnClick collab sliderValue src outputBefore =
      { outputCode := "// Error: Cannot read properties of undefined (reading \x27options\x27)",
        calls := [], raised := none } := by
  simp [obfuscateBtnClick, hsrc, tryBlock, hmem, Member.getOptions, catchBlock, getMessage,
    typeErrorReading, Prim.toStr]

theorem catchBlock_ok_of_not_nullish (e : Value) (hu : e ≠ .prim .undefined)
    (hn : e ≠ .prim .null) : ∃ message, catchBlock e = .ok ("// Error: " ++ message) := by
  cases e with
  | prim p =>
    cases p with
    | undefined => exact absurd rfl hu
    | null => exact absurd rfl hn
    | bool b => exact ⟨"undefined", by simp [catchBlock, getMessage, Prim.toStr]⟩
    | str s => exact ⟨"undefined", by simp [catchBlock, getMessage, Prim.toStr]⟩
  | obj m => exact ⟨m.toStr, by simp [catchBlock, getMessage]⟩

/-- C1. Success case of the click handler: for a source text whose trimmed
form is non-empty and a slider value `k` among "1", "2", "3", the level
`obfuscationLevelsMap[k]` exists, and whenever the collaborator, called with
the untrimmed source and that level's options, returns code `c`, the handler
sets the output to exactly the banner with that level's label followed by `c`
unmodified, having called the collaborator once with those arguments. -/
theorem obfuscateBtnClick_success (collab : Collaborator) (src k outputBefore : String)
    (hsrc : jsTrim src ≠ "") (hk : k ∈ ["1", "2", "3"]) :
    ∃ cfg, obfuscationLevelsMap.lookup k = some cfg ∧
      ∀ r c, collab.obfuscate src (some cfg.options) = .ok r → r.getObfuscatedCode = .ok c →
        obfuscateBtnClick collab k src outputBefore =
          { outputCode := "// Obfuscated by Black-Tappy [" ++ cfg.label ++ "]\n" ++ c
            calls := [(src, some cfg.options)]
            raised := none } := by
  simp only [List.mem_cons, List.mem_singleton, List.not_mem_nil, or_false] at hk
  rcases hk with rfl | rfl | rfl
  · exact ⟨basicLevelConfig, by decide, fun r c hobf hget =>
      click_of_level_success collab _ src outputBefore _ r c hsrc getMember_one hobf hget⟩
  · exact ⟨mediumLevelConfig, by decide, fun r c hobf hget =>
      click_of_level_success collab _ src outputBefore _ r c hsrc getMember_two hobf hget⟩
  · exact ⟨advancedLevelConfig, by decide, fun r c hobf hget =>
      click_of_level_success collab _ src outputBefore _ r c hsrc getMember_three hobf hget⟩

theorem obfuscateBtnClick_success_witness :
    jsTrim "var x=1;" ≠ "" ∧ "2" ∈ ["1", "2", "3"] ∧
      obfuscateBtnClick echoCollaborator "2" "var x=1;" "" =
        { outputCode := "// Obfuscated by Black-Tappy [MEDIUM]\nvar x=1;"
          calls := [("var x=1;", some mediumObfuscationOptions)]
          raised := none } :=
  ⟨by decide, by decide, by
    obtain ⟨cfg, hcfg, h⟩ :=
      obfuscateBtnClick_success echoCollaborator "var x=1;" "2" "" (by decide) (by decide)
    have hmedium : obfuscationLevelsMap.lookup "2" = some mediumLevelConfig := by decide
    obtain rfl : mediumLevelConfig = cfg := Option.some.inj (hmedium.symm.trans hcfg)
    exact h _ "var x=1;" rfl rfl⟩

/-- C2. Failure case of the click handler: for a source text whose trimmed
form is non-empty and a slider value `k` among "1", "2", "3", if the
collaborator call (`obfuscate`, or `getObfuscatedCode` on its result) raises an
error object whose message is the string `m`, the handler sets the output to
exactly "// Error: " followed by `m` and does not raise. -/
theorem obfuscateBtnClick_failure (collab : Collaborator) (src k outputBefore : String)
    (hsrc : jsTrim src ≠ "") (hk : k ∈ ["1", "2", "3"]) :
    ∃ cfg, obfuscationLevelsMap.lookup k = some cfg ∧
      ∀ m, CollaboratorRaises collab src (some cfg.options) (.obj (.str m)) →
        obfuscateBtnClick collab k src outputBefore =
          { outputCode := "// Error: " ++ m
            calls := [(src, some cfg.options)]
            raised := none } := by
  have key : ∀ cfg, getMember k = .level cfg →
      ∀ m, CollaboratorRaises collab src (some cfg.options) (.obj (.str m)) →
        obfuscateBtnClick collab k src outputBefore =
          { outputCode := "// Error: " ++ m, calls := [(src, some cfg.options)],
            raised := none } := by
    intro cfg hmem m hraise
    rw [click_of_level_raise collab k src outputBefore cfg _ hsrc hmem hraise]
    simp [catchBlock, getMessage, Prim.toStr]
  simp only [List.mem_cons, List.mem_singleton, List.not_mem_nil, or_false] at hk
  rcases hk with rfl | rfl | rfl
  · exact ⟨basicLevelConfig, by decide, key _ getMember_one⟩
  · exact ⟨mediumLevelConfig, by decide, key _ getMember_two⟩
  · exact ⟨advancedLevelConfig, by decide, key _ getMember_three⟩

theorem obfuscateBtnClick_failure_witness :
    jsTrim "var x=1;" ≠ "" ∧ "3" ∈ ["1", "2", "3"] ∧
      CollaboratorRaises boomCollaborator "var x=1;" (some advancedObfuscationOptions)
        (.obj (.str "boom")) ∧
      obfuscateBtnClick boomCollaborator "3" "var x=1;" "" =
        { outputCode := "// Error: boom"
          calls := [("var x=1;", some advancedObfuscationOptions)]
          raised := none } :=
  ⟨by decide, by decide, Or.inl rfl, by
    obtain ⟨cfg, hcfg, h⟩ :=
      obfuscateBtnClick_failure boomCollaborator "var x=1;" "3" "" (by decide) (by decide)
    have hadvanced : obfuscationLevelsMap.lookup "3" = some advancedLevelConfig := by decide
    obtain rfl : advancedLevelConfig = cfg := Option.some.inj (hadvanced.symm.trans hcfg)
    exact h "boom" (Or.inl rfl)⟩

/-- C3. Empty input: for a source text whose trimmed form is the empty string,
whatever the slider value and the collaborator, the handler sets the output to
the fixed placeholder, makes no collaborator call and does not raise. -/
theorem obfuscateBtnClick_empty_input (collab : Collaborator)
    (sliderValue src outputBefore : String) (hsrc : jsTrim src = "") :
    obfuscateBtnClick collab sliderValue src outputBefore =
      { outputCode := "// Tafadhali andika JavaScript code kwanza (Black-Tappy)"
        calls := []
        raised := none } :=
  click_of_empty collab sliderValue src outputBefore hsrc

theorem obfuscateBtnClick_empty_input_witness :
    jsTrim " \t\n " = "" ∧
      obfuscateBtnClick nullThrowingCollaborator "7" " \t\n " "old" =
        { outputCode := "// Tafadhali andika JavaScript code kwanza (Black-Tappy)"
          calls := []
          raised := none } :=
  ⟨by decide, obfuscateBtnClick_empty_input nullThrowingCollaborator "7" " \t\n " "old"
    (by decide)⟩

theorem tryBlock_outcome (collab : Collaborator) (sliderValue src : String) :
    (∃ label code, (tryBlock collab sliderValue src).2 = .ok (banner label ++ code)) ∨
      (∃ m, (tryBlock collab sliderValue src).2 = .error (.obj (.str m))) ∨
      ∃ options e, CollaboratorRaises collab src options e ∧
        (tryBlock collab sliderValue src).2 = .error e := by
  unfold tryBlock
  cases hm : getMember sliderValue with
  | undefined =>
    exact Or.inr (Or.inl ⟨_, rfl⟩)
  | level cfg =>
    simp only [Member.getOptions, Member.getLabel]
    cases ho : collab.obfuscate src (some cfg.options) with
    | error e => exact Or.inr (Or.inr ⟨_, e, Or.inl ho, rfl⟩)
    | ok r =>
      cases hg : r.getObfuscatedCode with
      | error e => exact Or.inr (Or.inr ⟨_, e, Or.inr ⟨r, ho, hg⟩, by simp [hg]⟩)
      | ok c => exact Or.inl ⟨cfg.label, c, by simp [hg, Prim.toStr]⟩
  | inherited =>
    simp only [Member.getOptions, Member.getLabel]
    cases ho : collab.obfuscate src none with
    | error e => exact Or.inr (Or.inr ⟨_, e, Or.inl ho, rfl⟩)
    | ok r =>
      cases hg : r.getObfuscatedCode with
      | error e => exact Or.inr (Or.inr ⟨_, e, Or.inr ⟨r, ho, hg⟩, by simp [hg]⟩)
      | ok c => exact Or.inl ⟨"undefined", c, by simp [hg, Prim.toStr]⟩

theorem click_of_try_ok (collab : Collaborator) (sliderValue src outputBefore text : String)
    (hsrc : jsTrim src ≠ "") (h : (tryBlock collab sliderValue src).2 = .ok text) :
    (obfuscateBtnClick collab sliderValue src outputBefore).raised = none ∧
      (obfuscateBtnClick collab sliderValue src outputBefore).outputCode = text := by
  rcases ht : tryBlock collab sliderValue src with ⟨calls, res⟩
  rw [ht] at h
  simp only at h
  subst h
  simp [obfuscateBtnClick, hsrc, ht]

theorem click_of_try_error (collab : Collaborator) (sliderValue src outputBefore text : String)
    (e : Value) (hsrc : jsTrim src ≠ "") (h : (tryBlock collab sliderValue src).2 = .error e)
    (hc : catchBlock e = .ok text) :
    (obfuscateBtnClick collab sliderValue src outputBefore).raised = none ∧
      (obfuscateBtnClick collab sliderValue src outputBefore).outputCode = text := by
  rcases ht : tryBlock collab sliderValue src with ⟨calls, res⟩
  rw [ht] at h
  simp only at h
  subst h
  simp [obfuscateBtnClick, hsrc, ht, hc]

theorem click_calls_of_level (collab : Collaborator) (sliderValue src outputBefore : String)
    (cfg : LevelConfig) (hsrc : jsTrim src ≠ "") (hmem : getMember sliderValue = .level cfg) :
    (obfuscateBtnClick collab sliderValue src outputBefore).calls =
      [(src, some cfg.options)] := by
  simp only [obfuscateBtnClick, hsrc, if_false, tryBlock, hmem, Member.getOptions,
    Member.getLabel]
  cases ho : collab.obfuscate src (some cfg.options) with
  | error e =>
    dsimp only
    cases hc : catchBlock e <;> rfl
  | ok r =>
    dsimp only
    cases hg : r.getObfuscatedCode with
    | error e =>
      dsimp only
      cases hc : catchBlock e <;> rfl
    | ok c => rfl

/-- C4 (counterexample). With the slider at "2" and the source "var x=1;", a
collaborator that executes `throw null` makes the `catch` block itself fail on
`error.message`: the handler raises a `TypeError` and the output keeps its
previous text (here the empty string). -/
theorem obfuscateBtnClick_raises_on_thrown_null :
    obfuscateBtnClick nullThrowingCollaborator "2" "var x=1;" "" =
      { outputCode := ""
        calls := [("var x=1;", some mediumObfuscationOptions)]
        raised := some (.obj (.str "Cannot read properties of null (reading \x27message\x27)")) } := by
  decide

/-- C4 (amended). For every source text, every slider value (a key of the
level table or not) and every collaborator that never throws `null` or
`undefined` (it may return, or raise from `obfuscate` or from
`getObfuscatedCode` any other value: an object with or without a message, or
a string or boolean), the handler completes without raising and leaves the
output in one of the three displayable forms. -/
theorem obfuscateBtnClick_displayable (collab : Collaborator)
    (sliderValue src outputBefore : String)
    (hthrown : ∀ options e, CollaboratorRaises collab src options e →
      e ≠ .prim .undefined ∧ e ≠ .prim .null) :
    (obfuscateBtnClick collab sliderValue src outputBefore).raised = none ∧
      Displayable (obfuscateBtnClick collab sliderValue src outputBefore).outputCode := by
  by_cases hsrc : jsTrim src = ""
  · rw [click_of_empty collab sliderValue src outputBefore hsrc]
    exact ⟨rfl, Or.inl rfl⟩
  · rcases tryBlock_outcome collab sliderValue src with
      ⟨label, code, h⟩ | ⟨m, h⟩ | ⟨options, e, hraise, h⟩
    · obtain ⟨hr, ho⟩ := click_of_try_ok collab sliderValue src outputBefore _ hsrc h
      exact ⟨hr, by rw [ho]; exact Or.inr (Or.inl ⟨label, code, rfl⟩)⟩
    · obtain ⟨hr, ho⟩ := click_of_try_error collab sliderValue src outputBefore
        ("// Error: " ++ m) _ hsrc h (by simp [catchBlock, getMessage, Prim.toStr])
      exact ⟨hr, by rw [ho]; exact Or.inr (Or.inr ⟨m, rfl⟩)⟩
    · obtain ⟨hu, hn⟩ := hthrown options e hraise
      obtain ⟨message, hc⟩ := catchBlock_ok_of_not_nullish e hu hn
      obtain ⟨hr, ho⟩ := click_of_try_error collab sliderValue src outputBefore _ _ hsrc h hc
      exact ⟨hr, by rw [ho]; exact Or.inr (Or.inr ⟨message, rfl⟩)⟩

theorem obfuscateBtnClick_displayable_witness :
    (∀ options e, CollaboratorRaises stringThrowingCollaborator "var x=1;" options e →
        e ≠ .prim .undefined ∧ e ≠ .prim .null) ∧
      (obfuscateBtnClick stringThrowingCollaborator "2" "var x=1;" "").raised = none ∧
      Displayable (obfuscateBtnClick stringThrowingCollaborator "2" "var x=1;" "").outputCode :=
  have h : ∀ options e, CollaboratorRaises stringThrowingCollaborator "var x=1;" options e →
      e ≠ .prim .undefined ∧ e ≠ .prim .null := by
    intro options e hraise
    rcases hraise with h | ⟨r, h, hg⟩
    · simp [stringThrowingCollaborator] at h
    · simp only [stringThrowingCollaborator, Except.ok.injEq] at h
      subst h
      simp only [Except.error.injEq] at hg
      subst hg
      exact ⟨by decide, by decide⟩
  ⟨h, obfuscateBtnClick_displayable stringThrowingCollaborator "2" "var x=1;" "" h⟩

/-! ## The slider handler -/

theorem toggleDots_length (v : Option Int) (dots : List Bool) (j : Nat) :
    (toggleDots v j dots).length = dots.length := by
  induction dots generalizing j with
  | nil => rfl
  | cons d rest ih => simp [toggleDots, ih]

theorem toggleDots_getElem? (v : Option Int) (dots : List Bool) (j i : Nat)
    (hi : i < dots.length) : (toggleDots v j dots)[i]? = some (isActiveIndex v (j + i)) := by
  induction dots generalizing j i with
  | nil => simp at hi
  | cons d rest ih =>
    cases i with
    | zero => simp [toggleDots]
    | succ i =>
      have hi1 : i < rest.length := by simpa using hi
      simp only [toggleDots, List.getElem?_cons_succ]
      rw [ih (j + 1) i hi1]
      congr 2
      omega

theorem isActiveIndex_succ (m i : Nat) :
    isActiveIndex (some ((m : Int) + 1)) i = decide (i = m) := by
  simp only [isActiveIndex, decide_eq_decide]
  omega

theorem toggleDots_count (m : Nat) (dots : List Bool) (j : Nat) :
    (toggleDots (some ((m : Int) + 1)) j dots).count true =
      if j ≤ m ∧ m < j + dots.length then 1 else 0 := by
  induction dots generalizing j with
  | nil =>
    have hc : ¬ (j ≤ m ∧ m < j + ([] : List Bool).length) := by
      simp only [List.length_nil]
      omega
    rw [if_neg hc]
    rfl
  | cons d rest ih =>
    simp only [toggleDots, isActiveIndex_succ, List.count_cons, ih (j + 1), List.length_cons]
    by_cases hjm : j = m
    · subst hjm
      have h1 : ¬ (j + 1 ≤ j ∧ j < j + 1 + rest.length) := by omega
      have h2 : j ≤ j ∧ j < j + (rest.length + 1) := by omega
      simp [h1, h2]
    · by_cases hc : j + 1 ≤ m ∧ m < j + 1 + rest.length
      · have h2 : j ≤ m ∧ m < j + (rest.length + 1) := by omega
        simp [hc, h2, hjm]
      · have h2 : ¬ (j ≤ m ∧ m < j + (rest.length + 1)) := by omega
        simp [hc, h2, hjm]

theorem slider_of_level (value levelBefore : String) (dotsBefore : List Bool) (cfg : LevelConfig)
    (h : getMember (numberKey (parseInt10 value)) = .level cfg) :
    securitySliderInput value levelBefore dotsBefore =
      { levelValue := cfg.label
        dots := toggleDots (parseInt10 value) 0 dotsBefore
        raised := none } := by
  simp [securitySliderInput, h, Member.getLabel, textContentOf]

theorem slider_raises_of_nan (value levelBefore : String) (dotsBefore : List Bool)
    (h : parseInt10 value = none) :
    (securitySliderInput value levelBefore dotsBefore).raised ≠ none := by
  have hm : getMember (numberKey none) = .undefined := by decide
  simp [securitySliderInput, h, hm, Member.getLabel]

/-- C5. Labels shown by the slider handler: run with the key "1", "2" or "3"
(whatever the label and the dots showed before), the handler does not raise
and the displayed label is the label of `obfuscationLevelsMap[key]`, which is
"BASIC" for key 1, "MEDIUM" for key 2 and "ADVANCED" for key 3. -/
theorem securitySliderInput_labels (levelBefore : String) (dotsBefore : List Bool) :
    (getMember "1" = .level basicLevelConfig ∧ basicLevelConfig.label = "BASIC" ∧
        (securitySliderInput "1" levelBefore dotsBefore).levelValue = "BASIC" ∧
        (securitySliderInput "1" levelBefore dotsBefore).raised = none) ∧
      (getMember "2" = .level mediumLevelConfig ∧ mediumLevelConfig.label = "MEDIUM" ∧
        (securitySliderInput "2" levelBefore dotsBefore).levelValue = "MEDIUM" ∧
        (securitySliderInput "2" levelBefore dotsBefore).raised = none) ∧
      (getMember "3" = .level advancedLevelConfig ∧ advancedLevelConfig.label = "ADVANCED" ∧
        (securitySliderInput "3" levelBefore dotsBefore).levelValue = "ADVANCED" ∧
        (securitySliderInput "3" levelBefore dotsBefore).raised = none) := by
  have h1 : getMember (numberKey (parseInt10 "1")) = .level basicLevelConfig := by decide
  have h2 : getMember (numberKey (parseInt10 "2")) = .level mediumLevelConfig := by decide
  have h3 : getMember (numberKey (parseInt10 "3")) = .level advancedLevelConfig := by decide
  rw [slider_of_level "1" levelBefore dotsBefore _ h1,
    slider_of_level "2" levelBefore dotsBefore _ h2,
    slider_of_level "3" levelBefore dotsBefore _ h3]
  exact ⟨⟨by decide, rfl, rfl, rfl⟩, ⟨by decide, rfl, rfl, rfl⟩, ⟨by decide, rfl, rfl, rfl⟩⟩

/-- C6 (counterexample). On a page with two indicator markers, running the
slider handler with key 3 completes and leaves no marker active: index 2 does
not exist. -/
theorem securitySliderInput_no_active_marker :
    securitySliderInput "3" "MEDIUM" [false, true] =
      { levelValue := "ADVANCED", dots := [false, false], raised := none } ∧
      (securitySliderInput "3" "MEDIUM" [false, true]).dots.count true = 0 := by
  decide

/-- C6 (amended). For every registry key `k` in 1, 2, 3, every list of at
least `k` indicator markers and every prior state of those markers, after the
slider handler runs with `k` exactly one marker is active and it is the marker
at index `k - 1`: the list keeps its length, `true` occurs once, and the
marker at index `i` is active exactly when `i = k - 1`. -/
theorem securitySliderInput_one_active (key : String) (k : Nat)
    (hkey : (key, k) ∈ [("1", 1), ("2", 2), ("3", 3)]) (levelBefore : String)
    (dotsBefore : List Bool) (hlen : k ≤ dotsBefore.length) :
    (securitySliderInput key levelBefore dotsBefore).raised = none ∧
      (securitySliderInput key levelBefore dotsBefore).dots.length = dotsBefore.length ∧
      (securitySliderInput key levelBefore dotsBefore).dots.count true = 1 ∧
      ∀ i, i < dotsBefore.length →
        (securitySliderInput key levelBefore dotsBefore).dots[i]? = some (decide (i = k - 1)) := by
  have main : ∀ (m : Nat) (cfg : LevelConfig), parseInt10 key = some ((m : Int) + 1) →
      getMember (numberKey (parseInt10 key)) = .level cfg → m + 1 ≤ dotsBefore.length →
      (securitySliderInput key levelBefore dotsBefore).raised = none ∧
      (securitySliderInput key levelBefore dotsBefore).dots.length = dotsBefore.length ∧
      (securitySliderInput key levelBefore dotsBefore).dots.count true = 1 ∧
      ∀ i, i < dotsBefore.length →
        (securitySliderInput key levelBefore dotsBefore).dots[i]? = some (decide (i = m)) := by
    intro m cfg hp hm hl
    rw [slider_of_level key levelBefore dotsBefore cfg hm, hp]
    refine ⟨rfl, toggleDots_length _ _ _, ?_, ?_⟩
    · have hc : 0 ≤ m ∧ m < 0 + dotsBefore.length := by omega
      simp only [toggleDots_count, hc, and_self, if_true]
    · intro i hi
      simp only [toggleDots_getElem? _ _ 0 i hi, isActiveIndex_succ, Nat.zero_add]
  simp only [List.mem_cons, List.mem_singleton, List.not_mem_nil, or_false,
    Prod.mk.injEq] at hkey
  rcases hkey with ⟨rfl, rfl⟩ | ⟨rfl, rfl⟩ | ⟨rfl, rfl⟩
  · exact main 0 basicLevelConfig (by decide) (by decide) hlen
  · exact main 1 mediumLevelConfig (by decide) (by decide) hlen
  · exact main 2 advancedLevelConfig (by decide) (by decide) hlen

theorem securitySliderInput_one_active_witness :
    ("2", 2) ∈ [("1", 1), ("2", 2), ("3", 3)] ∧ 2 ≤ [true, false, true].length ∧
      (securitySliderInput "2" "BASIC" [true, false, true]).raised = none ∧
      (securitySliderInput "2" "BASIC" [true, false, true]).dots.length =
        [true, false, true].length ∧
      (securitySliderInput "2" "BASIC" [true, false, true]).dots.count true = 1 ∧
      ∀ i, i < [true, false, true].length →
        (securitySliderInput "2" "BASIC" [true, false, true]).dots[i]? =
          some (decide (i = 2 - 1)) :=
  ⟨by decide, by decide,
    securitySliderInput_one_active "2" 2 (by decide) "BASIC" [true, false, true] (by decide)⟩

/-- C10 (counterexample). With the slider value "1.5" the selector displays
BASIC (`parseInt` gives 1), while a click with the same value and the source
"var x=1;" finds no level under the key "1.5": the collaborator is not called
and an error text is shown. -/
theorem selector_invoker_disagree :
    securitySliderInput "1.5" "MEDIUM" [false, true, false] =
      { levelValue := "BASIC", dots := [true, false, false], raised := none } ∧
      obfuscateBtnClick echoCollaborator "1.5" "var x=1;" "" =
        { outputCode := "// Error: Cannot read properties of undefined (reading \x27options\x27)"
          calls := []
          raised := none } := by
  decide

/-- C10 (amended). For every slider value string `s` on which the slider
handler succeeds, and every click with the same `s` and a source whose trimmed
form is non-empty: if `s` is itself one of the keys "1", "2", "3", the click
uses the level whose label the selector displayed (its options are what the
collaborator is called with, its label is in the banner); for any other `s`
the click finds no level, does not call the collaborator and shows an error
text. -/
theorem selector_invoker_agree (s levelBefore : String) (dotsBefore : List Bool)
    (hsel : (securitySliderInput s levelBefore dotsBefore).raised = none)
    (collab : Collaborator) (src outputBefore : String) (hsrc : jsTrim src ≠ "") :
    (s ∈ ["1", "2", "3"] →
        ∃ cfg, obfuscationLevelsMap.lookup s = some cfg ∧
          (securitySliderInput s levelBefore dotsBefore).levelValue = cfg.label ∧
          (obfuscateBtnClick collab s src outputBefore).calls = [(src, some cfg.options)] ∧
          ∀ r c, collab.obfuscate src (some cfg.options) = .ok r →
            r.getObfuscatedCode = .ok c →
            (obfuscateBtnClick collab s src outputBefore).outputCode =
              "// Obfuscated by Black-Tappy [" ++ cfg.label ++ "]\n" ++ c) ∧
      (s ∉ ["1", "2", "3"] →
        (obfuscateBtnClick collab s src outputBefore).calls = [] ∧
          (obfuscateBtnClick collab s src outputBefore).raised = none ∧
          ∃ message, (obfuscateBtnClick collab s src outputBefore).outputCode =
            "// Error: " ++ message) := by
  constructor
  · intro hs
    have key : ∀ cfg, getMember s = .level cfg →
        getMember (numberKey (parseInt10 s)) = .level cfg →
        (securitySliderInput s levelBefore dotsBefore).levelValue = cfg.label ∧
          (obfuscateBtnClick collab s src outputBefore).calls = [(src, some cfg.options)] ∧
          ∀ r c, collab.obfuscate src (some cfg.options) = .ok r →
            r.getObfuscatedCode = .ok c →
            (obfuscateBtnClick collab s src outputBefore).outputCode =
              "// Obfuscated by Black-Tappy [" ++ cfg.label ++ "]\n" ++ c := by
      intro cfg hm hn
      refine ⟨by rw [slider_of_level s levelBefore dotsBefore cfg hn],
        click_calls_of_level collab s src outputBefore cfg hsrc hm, ?_⟩
      intro r c hobf hget
      rw [click_of_level_success collab s src outputBefore cfg r c hsrc hm hobf hget]
      rfl
    simp only [List.mem_cons, List.mem_singleton, List.not_mem_nil, or_false] at hs
    rcases hs with rfl | rfl | rfl
    · exact ⟨basicLevelConfig, by decide, key _ (by decide) (by decide)⟩
    · exact ⟨mediumLevelConfig, by decide, key _ (by decide) (by decide)⟩
    · exact ⟨advancedLevelConfig, by decide, key _ (by decide) (by decide)⟩
  · intro hs
    have hproto : s ∉ objectPrototypeKeys := fun hmem =>
      slider_raises_of_nan s levelBefore dotsBefore (parseInt10_of_prototype_key hmem) hsel
    have hm : getMember s = .undefined :=
      getMember_undefined (lookup_eq_none_of_not_key hs) hproto
    rw [click_of_undefined collab s src outputBefore hsrc hm]
    exact ⟨rfl, rfl, _, rfl⟩

theorem selector_invoker_agree_witness :
    (securitySliderInput "3" "MEDIUM" [false, true, false]).raised = none ∧
      jsTrim "var x=1;" ≠ "" ∧ "3" ∈ ["1", "2", "3"] ∧
      (securitySliderInput "3" "MEDIUM" [false, true, false]).levelValue = "ADVANCED" ∧
      (obfuscateBtnClick echoCollaborator "3" "var x=1;" "").calls =
        [("var x=1;", some advancedObfuscationOptions)] ∧
      (obfuscateBtnClick echoCollaborator "3" "var x=1;" "").outputCode =
        "// Obfuscated by Black-Tappy [ADVANCED]\nvar x=1;" :=
  ⟨by decide, by decide, by decide, by
    obtain ⟨cfg, hcfg, hlabel, hcalls, hout⟩ :=
      (selector_invoker_agree "3" "MEDIUM" [false, true, false] (by decide) echoCollaborator
        "var x=1;" "" (by decide)).1 (by decide)
    have hadvanced : obfuscationLevelsMap.lookup "3" = some advancedLevelConfig := by decide
    obtain rfl : advancedLevelConfig = cfg := Option.some.inj (hadvanced.symm.trans hcfg)
    exact ⟨hlabel, hcalls, hout _ "var x=1;" rfl rfl⟩⟩

/-! ## The one-shot guard -/

theorem run_call_noop {σ : Type} (targets : Nat → Target σ) (fuel wrapper : Nat)
    (args : List Value) (w : World σ) (c : Closure) (hc : w.closures[wrapper]? = some c)
    (hspent : c.armed = false ∨ c.funcToExecute = none) :
    run targets (fuel + 1) (.call wrapper args) w = some (w, .normal (.prim .undefined)) := by
  rcases hspent with h | h
  · simp [run, hc, h]
  · cases ha : c.armed <;> simp [run, hc, h, ha]

theorem run_call_armed_normal {σ : Type} (targets : Nat → Target σ) (fuel wrapper t : Nat)
    (args : List Value) (w : World σ) (c : Closure) (s1 : σ) (v : Value)
    (hc : w.closures[wrapper]? = some c) (harmed : c.armed = true)
    (hfun : c.funcToExecute = some t)
    (hf : targets t c.context args w.user = .done s1 (.normal v)) :
    run targets (fuel + 2) (.call wrapper args) w =
      some (World.nullify
        { w with started := w.started ++ [(t, c.context, args)], user := s1 } wrapper,
        .normal v) := by
  simp [run, hc, harmed, hfun, hf]

theorem run_call_armed_throw {σ : Type} (targets : Nat → Target σ) (fuel wrapper t : Nat)
    (args : List Value) (w : World σ) (c : Closure) (s1 : σ) (e : Value)
    (hc : w.closures[wrapper]? = some c) (harmed : c.armed = true)
    (hfun : c.funcToExecute = some t)
    (hf : targets t c.context args w.user = .done s1 (.throw e)) :
    run targets (fuel + 2) (.call wrapper args) w =
      some ({ w with started := w.started ++ [(t, c.context, args)], user := s1 },
        .throw e) := by
  simp [run, hc, harmed, hfun, hf]

theorem invokeAll_noop {σ : Type} (targets : Nat → Target σ) (fuel wrapper : Nat)
    (argss : List (List Value)) (w : World σ) (c : Closure)
    (hc : w.closures[wrapper]? = some c)
    (hspent : c.armed = false ∨ c.funcToExecute = none) :
    invokeAll targets (fuel + 1) wrapper argss w =
      some (w, List.replicate argss.length (.normal (.prim .undefined))) := by
  induction argss with
  | nil => rfl
  | cons args rest ih =>
    simp [invokeAll, run_call_noop targets fuel wrapper args w c hc hspent, ih,
      List.replicate_succ]

theorem nullify_isFirstCall {σ : Type} (w : World σ) (wrapper : Nat) :
    (w.nullify wrapper).isFirstCall = w.isFirstCall := rfl

theorem clearAt_armed (wrapper : Nat) (cs : List Closure) :
    (clearAt wrapper cs).map Closure.armed = cs.map Closure.armed := by
  induction cs generalizing wrapper with
  | nil => cases wrapper <;> rfl
  | cons c rest ih =>
    cases wrapper with
    | zero => rfl
    | succ n => simp [clearAt, ih]

theorem nullify_armed {σ : Type} (w : World σ) (wrapper : Nat) :
    (w.nullify wrapper).closures.map Closure.armed = w.closures.map Closure.armed :=
  clearAt_armed wrapper w.closures

theorem run_preserves {σ : Type} (targets : Nat → Target σ) (fuel : Nat) :
    ∀ (task : Task σ) (w w1 : World σ) (c : Completion),
      run targets fuel task w = some (w1, c) →
        w1.isFirstCall = w.isFirstCall ∧
          w1.closures.map Closure.armed = w.closures.map Closure.armed := by
  induction fuel with
  | zero => intro task w w1 c h; simp [run] at h
  | succ fuel ih =>
    intro task w w1 c h
    cases task with
    | call wrapper args =>
      simp only [run] at h
      cases hc : w.closures[wrapper]? with
      | none =>
        rw [hc] at h
        simp only [Option.some.injEq, Prod.mk.injEq] at h
        rw [← h.1]
        exact ⟨rfl, rfl⟩
      | some cl =>
        rw [hc] at h
        simp only at h
        cases ha : cl.armed with
        | false =>
          simp only [ha, Bool.false_eq_true, if_false, Option.some.injEq, Prod.mk.injEq] at h
          rw [← h.1]
          exact ⟨rfl, rfl⟩
        | true =>
          simp only [ha, if_true] at h
          cases hfn : cl.funcToExecute with
          | none =>
            simp only [hfn, Option.some.injEq, Prod.mk.injEq] at h
            rw [← h.1]
            exact ⟨rfl, rfl⟩
          | some t =>
            simp only [hfn] at h
            cases hr : run targets fuel (.resume (targets t cl.context args w.user))
                { w with started := w.started ++ [(t, cl.context, args)] } with
            | none => simp [hr] at h
            | some res =>
              obtain ⟨w2, c2⟩ := res
              have h2 := ih _ _ _ _ hr
              cases c2 with
              | normal result =>
                simp only [hr, Option.some.injEq, Prod.mk.injEq] at h
                rw [← h.1, nullify_isFirstCall, nullify_armed]
                exact h2
              | throw e =>
                simp only [hr, Option.some.injEq, Prod.mk.injEq] at h
                rw [← h.1]
                exact h2
    | resume body =>
      cases body with
      | done s c0 =>
        simp only [run, Option.some.injEq, Prod.mk.injEq] at h
        rw [← h.1]
        exact ⟨rfl, rfl⟩
      | invoke s wrapper args k =>
        simp only [run] at h
        cases hr : run targets fuel (.call wrapper args) { w with user := s } with
        | none => simp [hr] at h
        | some res =>
          obtain ⟨w2, c2⟩ := res
          simp only [hr] at h
          have h1 := ih _ _ _ _ h
          have h2 := ih _ _ _ _ hr
          exact ⟨h1.1.trans h2.1, h1.2.trans h2.2⟩

/-- C7. Exactly once: let `w` be the wrapper returned by the first call of a
newly constructed guard with context `context` and a non-null target `t`
whose run on the first invocation returns normally (value `v`, leaving state
`s1`) without nested invocation. For every sequence of at least two
non-nested invocations of `w`, with arbitrary arguments and any depth bound of
at least 2, all invocations complete: the target began executing exactly once
(on the first invocation, with `context` as `this` and that invocation's
arguments), the first invocation returns `v`, and every later invocation
returns `undefined` and leaves the log and the state untouched. -/
theorem oneTimeFunctionExecutor_exactly_once {σ : Type} (targets : Nat → Target σ) (t : Nat)
    (context : Value) (s0 s1 : σ) (v : Value) (a0 a1 : List Value) (rest : List (List Value))
    (fuel : Nat) (hfuel : 2 ≤ fuel)
    (hf : targets t context a0 s0 = .done s1 (.normal v)) :
    invokeAll targets fuel (oneTimeFunctionExecutor context (some t) (World.fresh s0)).2
        (a0 :: a1 :: rest) (oneTimeFunctionExecutor context (some t) (World.fresh s0)).1 =
      some ({ isFirstCall := false
              closures := [{ armed := true, context := context, funcToExecute := none }]
              started := [(t, context, a0)]
              user := s1 },
        .normal v :: List.replicate (rest.length + 1) (.normal (.prim .undefined))) := by
  obtain ⟨n, rfl⟩ : ∃ n, fuel = n + 2 := ⟨fuel - 2, by omega⟩
  have hfirst := run_call_armed_normal targets n 0 t a0
    (oneTimeFunctionExecutor context (some t) (World.fresh s0)).1
    { armed := true, context := context, funcToExecute := some t } s1 v rfl rfl rfl hf
  have hrest := invokeAll_noop targets (n + 1) 0 (a1 :: rest)
    { isFirstCall := false
      closures := [{ armed := true, context := context, funcToExecute := none }]
      started := [(t, context, a0)]
      user := s1 }
    { armed := true, context := context, funcToExecute := none } rfl (Or.inr rfl)
  simp only [invokeAll] at hrest ⊢
  simp only [oneTimeFunctionExecutor, World.fresh, List.nil_append, List.length_nil] at hfirst ⊢
  rw [hfirst]
  simp only [World.nullify, clearAt]
  rw [hrest]
  rfl

theorem oneTimeFunctionExecutor_exactly_once_witness :
    2 ≤ 2 ∧
      countingTargets 0 (.prim .undefined) [.prim (.str "a")] 0 =
        .done 1 (.normal (.prim (.str "done"))) ∧
      invokeAll countingTargets 2
          (oneTimeFunctionExecutor (.prim .undefined) (some 0) (World.fresh 0)).2
          ([.prim (.str "a")] :: [.prim (.str "b")] :: [[], [.prim .null]])
          (oneTimeFunctionExecutor (.prim .undefined) (some 0) (World.fresh 0)).1 =
        some ({ isFirstCall := false
                closures :=
                  [{ armed := true, context := .prim .undefined, funcToExecute := none }]
                started := [(0, .prim .undefined, [.prim (.str "a")])]
                user := 1 },
          .normal (.prim (.str "done")) ::
            List.replicate ([[], [Value.prim .null]].length + 1)
              (.normal (.prim .undefined))) :=
  ⟨by decide, rfl,
    oneTimeFunctionExecutor_exactly_once countingTargets 0 (.prim .undefined) 0 1
      (.prim (.str "done")) [.prim (.str "a")] [.prim (.str "b")] [[], [.prim .null]] 2
      (by decide) rfl⟩

/-- C8 (counterexample). On one guard, called twice with the same context and
target, the wrapper returned by the second call is not Armed: its first
invocation returns `undefined`, the target never begins executing and the
counter it would increment stays at 0. -/
theorem oneTimeFunctionExecutor_second_wrapper_noop :
    run countingTargets 5
        (.call
          (oneTimeFunctionExecutor (.prim .undefined) (some 0)
            (oneTimeFunctionExecutor (.prim .undefined) (some 0) (World.fresh 0)).1).2
          [.prim (.str "a")])
        (oneTimeFunctionExecutor (.prim .undefined) (some 0)
          (oneTimeFunctionExecutor (.prim .undefined) (some 0) (World.fresh 0)).1).1 =
      some ({ isFirstCall := false
              closures :=
                [{ armed := true, context := .prim .undefined, funcToExecute := some 0 },
                 { armed := false, context := .prim .undefined, funcToExecute := some 0 }]
              started := []
              user := 0 },
        .normal (.prim .undefined)) := by
  decide

/-- C8 (amended). Only the wrapper returned by the first call on a guard
starts Armed: on a newly constructed guard, the first invocation of the
wrapper returned by `guard(context, target)` executes `target` bound to
`context` with the supplied arguments and returns its result. Every call on
the guard clears `isFirstCall` and appends a wrapper whose kind is the flag
read at that call; no invocation changes the flag or the kind of a wrapper;
a wrapper of the second kind returns `undefined` on every invocation without
executing anything; hence every later call on the same guard returns a
wrapper that is a no-op from the start. -/
theorem oneTimeFunctionExecutor_only_first_armed {σ : Type} (targets : Nat → Target σ)
    (t : Nat) (context : Value) (args : List Value) (s0 s1 : σ) (v : Value) (fuel : Nat)
    (hfuel : 2 ≤ fuel) (hf : targets t context args s0 = .done s1 (.normal v)) :
    run targets fuel
        (.call (oneTimeFunctionExecutor context (some t) (World.fresh s0)).2 args)
        (oneTimeFunctionExecutor context (some t) (World.fresh s0)).1 =
      some ({ isFirstCall := false
              closures := [{ armed := true, context := context, funcToExecute := none }]
              started := [(t, context, args)]
              user := s1 },
        .normal v) ∧
      (∀ (ctx : Value) (f : Option Nat) (w : World σ),
        (oneTimeFunctionExecutor ctx f w).1.isFirstCall = false ∧
          (oneTimeFunctionExecutor ctx f w).1.closures =
            w.closures ++ [{ armed := w.isFirstCall, context := ctx, funcToExecute := f }] ∧
          (oneTimeFunctionExecutor ctx f w).2 = w.closures.length) ∧
      (∀ (n : Nat) (task : Task σ) (w w1 : World σ) (c : Completion),
        run targets n task w = some (w1, c) →
          w1.isFirstCall = w.isFirstCall ∧
            w1.closures.map Closure.armed = w.closures.map Closure.armed) ∧
      (∀ (w : World σ) (wrapper : Nat) (cl : Closure) (a : List Value) (n : Nat),
        w.closures[wrapper]? = some cl → cl.armed = false →
          run targets (n + 1) (.call wrapper a) w = some (w, .normal (.prim .undefined))) ∧
      ∀ (w : World σ), w.isFirstCall = false →
        ∀ (ctx : Value) (f : Option Nat) (a : List Value) (n : Nat),
          run targets (n + 1) (.call (oneTimeFunctionExecutor ctx f w).2 a)
              (oneTimeFunctionExecutor ctx f w).1 =
            some ((oneTimeFunctionExecutor ctx f w).1, .normal (.prim .undefined)) := by
  refine ⟨?_, fun ctx f w => ⟨rfl, rfl, rfl⟩, fun n => run_preserves targets n,
    fun w wrapper cl a n hc ha => run_call_noop targets n wrapper a w cl hc (Or.inl ha), ?_⟩
  · obtain ⟨n, rfl⟩ : ∃ n, fuel = n + 2 := ⟨fuel - 2, by omega⟩
    have hfirst := run_call_armed_normal targets n 0 t args
      (oneTimeFunctionExecutor context (some t) (World.fresh s0)).1
      { armed := true, context := context, funcToExecute := some t } s1 v rfl rfl rfl hf
    simp only [oneTimeFunctionExecutor, World.fresh, List.nil_append, List.length_nil]
      at hfirst ⊢
    rw [hfirst]
    rfl
  · intro w hw ctx f a n
    refine run_call_noop targets n _ a _
      { armed := false, context := ctx, funcToExecute := f } ?_ (Or.inl rfl)
    simp [oneTimeFunctionExecutor, hw]

theorem oneTimeFunctionExecutor_only_first_armed_witness :
    2 ≤ 2 ∧
      countingTargets 0 (.prim .null) [.prim (.str "a")] 7 =
        .done 8 (.normal (.prim (.str "done"))) ∧
      run countingTargets 2
          (.call (oneTimeFunctionExecutor (.prim .null) (some 0) (World.fresh 7)).2
            [.prim (.str "a")])
          (oneTimeFunctionExecutor (.prim .null) (some 0) (World.fresh 7)).1 =
        some ({ isFirstCall := false
                closures := [{ armed := true, context := .prim .null, funcToExecute := none }]
                started := [(0, .prim .null, [.prim (.str "a")])]
                user := 8 },
          .normal (.prim (.str "done"))) :=
  ⟨by decide, rfl,
    (oneTimeFunctionExecutor_only_first_armed countingTargets 0 (.prim .null)
      [.prim (.str "a")] 7 8 (.prim (.str "done")) 2 (by decide) rfl).1⟩

/-- C9 (the code at the failing inputs). A target that raises is executed
again by the next invocation of the same wrapper, and a target that invokes
its own wrapper while running is entered a second time: in both runs the log
shows two starts of the target and the counter ends at 2, because
`funcToExecute` is cleared only after the target has returned. -/
theorem oneTimeFunctionExecutor_target_runs_twice :
    invokeAll raisingTargets 2 0 [[], []]
        (oneTimeFunctionExecutor (.prim .undefined) (some 0) (World.fresh 0)).1 =
      some ({ isFirstCall := false
              closures :=
                [{ armed := true, context := .prim .undefined, funcToExecute := some 0 }]
              started := [(0, .prim .undefined, []), (0, .prim .undefined, [])]
              user := 2 },
        [.throw (.obj (.str "boom")), .throw (.obj (.str "boom"))]) ∧
      run reentrantTargets 4 (.call 0 [.prim .null])
          (oneTimeFunctionExecutor (.prim .undefined) (some 0) (World.fresh 0)).1 =
        some ({ isFirstCall := false
                closures :=
                  [{ armed := true, context := .prim .undefined, funcToExecute := none }]
                started :=
                  [(0, .prim .undefined, [.prim .null]), (0, .prim .undefined, [])]
                user := 2 },
          .normal (.prim (.str "done"))) := by
  decide

/-! ## Empty trimmed text -/

theorem forall_mem_dropWhile_iff (p : Char → Bool) (l : List Char) :
    (∀ c ∈ l.dropWhile p, p c = true) ↔ ∀ c ∈ l, p c = true := by
  induction l with
  | nil => simp
  | cons a rest ih =>
    by_cases ha : p a = true
    · simp [List.dropWhile_cons, ha, ih]
    · simp [List.dropWhile_cons, ha]

theorem trimChars_eq_nil_iff (l : List Char) :
    trimChars l = [] ↔ ∀ c ∈ l, isJSWhiteSpace c = true := by
  unfold trimChars
  rw [List.reverse_eq_nil_iff, List.dropWhile_eq_nil_iff]
  simp only [List.mem_reverse]
  exact forall_mem_dropWhile_iff isJSWhiteSpace l

theorem jsTrim_eq_empty_iff (s : String) :
    jsTrim s = "" ↔ ∀ c ∈ s.toList, isJSWhiteSpace c = true := by
  rw [← trimChars_eq_nil_iff]
  unfold jsTrim
  constructor
  · intro h
    have := congrArg String.toList h
    simpa using this
  · intro h
    rw [h]

end JavascriptAI
